import Mathlib

/-
  Verification development for the Candidex resilient AI-evaluation gateway.

  Shallow embedding of the backend modules:
    - fallbackQuestions.js   (question tables, role classification)
    - fallbackEvaluation.js  (heuristic scoring)
    - aiClient.js            (generateQuestions / evaluateAnswers with
                              validation, normalization and fallback)
    - interviewController.js (overall score, per-question indices, analytics)
    - rateLimiter.js         (sliding-window admission control)

  Modelling conventions:
    - JS numbers are modelled as rationals; Math.round is round-half-up.
    - The provider call (OpenAI + 9000 ms race + JSON parsing) is modelled
      by a `ProviderOutcome` value: `timeout`, `failure` (network error,
      missing content, unparseable JSON, missing credential), or `ok raw`
      carrying the parsed JSON payload.  The two Math.random() draws per
      sub-score are modelled as `Fin 15` parameters (Math.floor(random*15)).
    - JS string trim / toLowerCase are modelled for the ASCII range used by
      the repository data (jsTrim, jsToLower).
-/

/-- Whitespace test used by jsTrim (the ASCII part of the JS trim set). -/
def isJsWs (c : Char) : Bool :=
  c = ' ' || c = '\t' || c = '\n' || c = '\r'

/-- Model of the JS String.prototype.trim for ASCII strings. -/
def jsTrim (s : String) : String :=
  ⟨((s.data.dropWhile isJsWs).reverse.dropWhile isJsWs).reverse⟩

/-- Model of the JS String.prototype.toLowerCase for ASCII strings. -/
def jsToLower (s : String) : String :=
  ⟨s.data.map (fun c => if 'A' ≤ c ∧ c ≤ 'Z' then Char.ofNat (c.toNat + 32) else c)⟩

/-- Does the pattern occur at the head of the character list. -/
def subAt : List Char → List Char → Bool
  | _, [] => true
  | [], _ :: _ => false
  | c :: cs, p :: ps => c = p && subAt cs ps

/-- Does the pattern occur anywhere in the character list. -/
def hasSub : List Char → List Char → Bool
  | [], pat => pat.isEmpty
  | s@(_ :: cs), pat => subAt s pat || hasSub cs pat

/-- Model of the JS String.prototype.includes. -/
def jsIncludes (s pat : String) : Bool :=
  hasSub s.data pat.data

/-- Model of the JS Math.round (round half toward positive infinity). -/
def jsRound (q : ℚ) : ℤ := ⌊q + 1/2⌋

/-! ## fallbackQuestions.js -/

/-- One difficulty level of the fixed question table (three role categories). -/
structure CategoryTable where
  general : List String
  technical : List String
  business : List String
deriving DecidableEq, Repr

/-- The `easy` entry of the fallbackQuestions table. -/
def easyTable : CategoryTable where
  general :=
    [ "Tell me about yourself and your background."
    , "What interests you most about this role?"
    , "What are your key strengths?"
    , "Where do you see yourself in 5 years?"
    , "Why should we consider you for this position?" ]
  technical :=
    [ "What programming languages are you most comfortable with?"
    , "Describe a project you recently worked on."
    , "How do you approach problem-solving?"
    , "What development tools do you use regularly?"
    , "How do you stay updated with technology trends?" ]
  business :=
    [ "What experience do you have in this industry?"
    , "How do you handle tight deadlines?"
    , "Describe a time you worked in a team."
    , "What motivates you in your work?"
    , "How do you prioritize your tasks?" ]

/-- The `medium` entry of the fallbackQuestions table. -/
def mediumTable : CategoryTable where
  general :=
    [ "Describe a challenging project you worked on. How did you handle it?"
    , "How do you stay updated with industry trends?"
    , "Can you explain a time when you had to work under pressure?"
    , "What tools and technologies are you most comfortable with?"
    , "How do you handle feedback and criticism?" ]
  technical :=
    [ "Explain a complex technical problem you solved recently."
    , "How do you ensure code quality in your projects?"
    , "Describe your experience with version control and collaboration."
    , "What is your approach to debugging complex issues?"
    , "How do you balance technical debt with feature delivery?" ]
  business :=
    [ "Describe a situation where you had to make a difficult decision."
    , "How do you handle conflicting priorities?"
    , "Explain a time you had to learn something new quickly."
    , "How do you communicate technical concepts to non-technical stakeholders?"
    , "Describe your experience with agile methodologies." ]

/-- The `hard` entry of the fallbackQuestions table. -/
def hardTable : CategoryTable where
  general :=
    [ "Design a scalable system for a specific challenge. Walk me through your approach."
    , "How would you optimize a performance bottleneck? Discuss trade-offs."
    , "Describe a time when you had to make a difficult technical decision. What was your process?"
    , "How do you approach architecting a new system from scratch?"
    , "Explain how you would mentor a junior team member." ]
  technical :=
    [ "How would you design a distributed system to handle high traffic?"
    , "Explain your approach to database optimization and scaling."
    , "Describe how you would implement a microservices architecture."
    , "How do you handle system reliability and fault tolerance?"
    , "Explain your approach to security in application development." ]
  business :=
    [ "How would you lead a team through a major technical migration?"
    , "Describe your approach to technical strategy and planning."
    , "How do you balance innovation with stability in production systems?"
    , "Explain how you would handle a critical production incident."
    , "Describe your experience with cost optimization in cloud infrastructure." ]

/-- Property access fallbackQuestions[difficulty] of the JS object literal. -/
def difficultyLookup (d : String) : Option CategoryTable :=
  if d = "easy" then some easyTable
  else if d = "medium" then some mediumTable
  else if d = "hard" then some hardTable
  else none

/-- Property access table[category] for the three category keys produced by
classification; any other key is absent. -/
def categoryLookup (t : CategoryTable) (c : String) : Option (List String) :=
  if c = "general" then some t.general
  else if c = "technical" then some t.technical
  else if c = "business" then some t.business
  else none

/-- Role classification of getFallbackQuestions: case-insensitive keyword
matching, technical before business, default general. -/
def roleCategory (normalizedRole : String) : String :=
  if jsIncludes normalizedRole "developer" || jsIncludes normalizedRole "engineer" ||
     jsIncludes normalizedRole "programmer" || jsIncludes normalizedRole "software" ||
     jsIncludes normalizedRole "technical" then "technical"
  else if jsIncludes normalizedRole "manager" || jsIncludes normalizedRole "business" ||
          jsIncludes normalizedRole "product" || jsIncludes normalizedRole "analyst"
       then "business"
  else "general"

/-- getFallbackQuestions from fallbackQuestions.js.  The JS chain
`tbl[nd]?.[cat] || tbl[nd]?.general || tbl.easy.general` is modelled with
Options; the tables are non-empty arrays, hence truthy in JS, so falling
through happens exactly when the property is absent. -/
def getFallbackQuestions (role difficulty : String) : List String :=
  let nd := jsToLower difficulty
  let nr := jsToLower role
  let category := roleCategory nr
  let questions :=
    match (difficultyLookup nd).bind (fun t => categoryLookup t category) with
    | some qs => qs
    | none =>
      match (difficultyLookup nd).map CategoryTable.general with
      | some qs => qs
      | none => easyTable.general
  questions.take 5

/-! ## fallbackEvaluation.js -/

/-- One entry of perQuestionEvaluations after normalization. -/
structure PerQuestionEval where
  clarityScore : ℤ
  correctnessScore : ℤ
  communicationScore : ℤ
  feedback : String
deriving DecidableEq, Repr

/-- The canonical evaluation record.  The fallback engine never produces the
perQuestionEvaluations field, modelled by `none`. -/
structure Evaluation where
  clarityScore : ℤ
  correctnessScore : ℤ
  communicationScore : ℤ
  strengths : List String
  areasForImprovement : List String
  overallFeedback : String
  perQuestionEvaluations : Option (List PerQuestionEval)
deriving DecidableEq, Repr

/-- Quality weight of one answer in getFallbackEvaluation.  The JS guard
`!answer || answer.trim().length < 10` is subsumed by the trimmed-length
test (an empty string trims to length 0); the two later bands compare the
RAW (untrimmed) length, exactly as the source does. -/
def answerQuality (answer : String) : ℚ :=
  if (jsTrim answer).length < 10 then 3/10
  else if answer.length < 50 then 1/2
  else if answer.length < 150 then 3/4
  else 9/10

/-- Mean quality weight over the answer list (reduce then divide by length).
For the empty list the JS value is NaN; rational division by zero yields 0
here, so theorems about this function carry a non-emptiness hypothesis,
matching the AnswerSet invariant (one answer per question, five questions). -/
def averageQuality (answers : List String) : ℚ :=
  (answers.map answerQuality).sum / (answers.length : ℚ)

/-- getFallbackEvaluation from fallbackEvaluation.js.  The three
Math.floor(Math.random() * 15) draws are the `Fin 15` parameters. -/
def getFallbackEvaluation (answers : List String) (r1 r2 r3 : Fin 15) : Evaluation :=
  let baseScore : ℤ := jsRound (50 + averageQuality answers * 40)
  let clarityScore : ℤ := min 100 (max 40 (baseScore + (r1.val : ℤ) - 7))
  let correctnessScore : ℤ := min 100 (max 40 (baseScore + (r2.val : ℤ) - 7))
  let communicationScore : ℤ := min 100 (max 40 (baseScore + (r3.val : ℤ) - 7))
  let strengths0 :=
    (if clarityScore ≥ 70 then ["Clear and articulate communication"] else []) ++
    (if correctnessScore ≥ 70 then ["Demonstrated knowledge in responses"] else []) ++
    (if communicationScore ≥ 70 then ["Effective explanation of concepts"] else [])
  let strengths := if strengths0 = [] then ["Demonstrated effort in responses"] else strengths0
  let areas0 :=
    (if clarityScore < 70 then ["Work on articulating thoughts more clearly"] else []) ++
    (if correctnessScore < 70 then ["Enhance technical depth and accuracy"] else []) ++
    (if communicationScore < 70 then ["Improve communication and explanation skills"] else [])
  let areasForImprovement :=
    if areas0 = [] then ["Continue practicing to maintain high performance"] else areas0
  let overallScore : ℤ :=
    jsRound (((clarityScore + correctnessScore + communicationScore : ℤ) : ℚ) / 3)
  let overallFeedback :=
    if overallScore ≥ 80 then
      "Good performance overall. You demonstrated solid understanding and communication skills."
    else if overallScore ≥ 65 then
      "Adequate performance. There is room for improvement in clarity, correctness, and communication."
    else
      "Your responses need improvement. Focus on providing more detailed answers and enhancing communication clarity."
  { clarityScore := clarityScore
    correctnessScore := correctnessScore
    communicationScore := communicationScore
    strengths := strengths
    areasForImprovement := areasForImprovement
    overallFeedback := overallFeedback
    perQuestionEvaluations := none }

/-! ## aiClient.js -/

/-- Outcome of the raced provider call, as seen by the client after JSON
parsing: the 9000 ms timeout fired first, the call failed for any other
reason (network error, missing content, unparseable JSON, missing
credential), or a parsed payload arrived. -/
inductive ProviderOutcome (α : Type) where
  | timeout
  | failure
  | ok (payload : α)
deriving DecidableEq, Repr

/-- Parsed JSON payload of the question-generation call.  `questions` is
`none` when the field is absent or not an array; a `none` entry models a
non-string array element. -/
structure RawQuestions where
  questions : Option (List (Option String))
deriving DecidableEq, Repr

/-- Result of generateQuestions. -/
structure QuestionsResult where
  questions : List String
  usedFallback : Bool
  model : Option String
deriving DecidableEq, Repr

/-- Validation of the question payload in generateQuestions: the field must
be an array of exactly 5 entries, and filtering to non-empty-after-trim
string entries must leave exactly 5.  On success the JS returns
parsed.questions itself, whose entries are then all strings. -/
def normalizeQuestions (raw : RawQuestions) : Option (List String) :=
  match raw.questions with
  | none => none
  | some qs =>
    if qs.length = 5 then
      let valid := qs.filterMap (fun q =>
        match q with
        | some s => if 0 < (jsTrim s).length then some s else none
        | none => none)
      if valid.length = 5 then some (qs.map (fun q => q.getD "")) else none
    else none

/-- generateQuestions from aiClient.js.  Every throw inside the try block
(timeout, provider failure, validation failure) is caught and turned into
the fallback result; the function itself is total and never raises. -/
def generateQuestions (outcome : ProviderOutcome RawQuestions)
    (role difficulty : String) : QuestionsResult :=
  match outcome with
  | .ok raw =>
    match normalizeQuestions raw with
    | some qs => { questions := qs, usedFallback := false, model := some "gpt-4o-mini" }
    | none =>
      { questions := getFallbackQuestions role difficulty, usedFallback := true, model := none }
  | _ =>
    { questions := getFallbackQuestions role difficulty, usedFallback := true, model := none }

/-- One parsed entry of perQuestionEvaluations; `none` score fields model
absent or non-number JSON values, `none` feedback models a non-string. -/
structure RawPerQuestion where
  clarityScore : Option ℚ
  correctnessScore : Option ℚ
  communicationScore : Option ℚ
  feedback : Option String
deriving DecidableEq, Repr

/-- Parsed JSON payload of the evaluation call. -/
structure RawEvaluation where
  clarityScore : Option ℚ
  correctnessScore : Option ℚ
  communicationScore : Option ℚ
  strengths : Option (List String)
  areasForImprovement : Option (List String)
  overallFeedback : Option String
  perQuestionEvaluations : Option (List RawPerQuestion)
deriving DecidableEq, Repr

/-- Result of evaluateAnswers. -/
structure EvalResult where
  evaluation : Evaluation
  usedFallback : Bool
  model : Option String
deriving DecidableEq, Repr

/-- Per-entry validation of the perQuestionEvaluations loop: the three
scores must be numbers inside [0, 100] and feedback must be a string. -/
def RawPerQuestion.valid (pq : RawPerQuestion) : Bool :=
  match pq.clarityScore, pq.correctnessScore, pq.communicationScore, pq.feedback with
  | some c, some co, some cm, some _ =>
    decide (0 ≤ c ∧ c ≤ 100 ∧ 0 ≤ co ∧ co ≤ 100 ∧ 0 ≤ cm ∧ cm ≤ 100)
  | _, _, _, _ => false

/-- Clamp into [0, 100] then round, as applied by aiClient.js on the
provider path (Math.round(Math.max(0, Math.min(100, x)))). -/
def normScore (q : ℚ) : ℤ := jsRound (max 0 (min 100 q))

/-- Normalization of one per-question entry on the provider path. -/
def normalizePerQuestion (pq : RawPerQuestion) : PerQuestionEval :=
  { clarityScore := normScore (pq.clarityScore.getD 0)
    correctnessScore := normScore (pq.correctnessScore.getD 0)
    communicationScore := normScore (pq.communicationScore.getD 0)
    feedback :=
      if jsTrim (pq.feedback.getD "") = "" then "No specific feedback provided."
      else jsTrim (pq.feedback.getD "") }

/-- Validation and normalization of the evaluation payload: the checks of
the try block of evaluateAnswers.  The source interleaves presence checks
(scores numeric, arrays present, feedback a string, perQuestionEvaluations
an array) with the range and length checks; every failure throws into the
same catch, so the acceptance set is unchanged by matching all presence
checks first, then range of the overall scores (out of range throws, line
238), then the per-question length, then per-entry validity.  On success:
clamp-round all scores, filter empty strings out of the two arrays
substituting defaults, and default empty feedback. -/
def normalizeEvaluation (raw : RawEvaluation) (questionCount : ℕ) : Option Evaluation :=
  match raw.clarityScore, raw.correctnessScore, raw.communicationScore,
        raw.strengths, raw.areasForImprovement, raw.overallFeedback,
        raw.perQuestionEvaluations with
  | some c, some co, some cm, some sts, some afs, some fb, some pqs =>
    if c < 0 ∨ 100 < c ∨ co < 0 ∨ 100 < co ∨ cm < 0 ∨ 100 < cm then none
    else if pqs.length ≠ questionCount then none
    else if ¬ pqs.all RawPerQuestion.valid then none
    else
      let sts2 := sts.filter (fun s => 0 < (jsTrim s).length)
      let afs2 := afs.filter (fun s => 0 < (jsTrim s).length)
      some
        { clarityScore := normScore c
          correctnessScore := normScore co
          communicationScore := normScore cm
          strengths := if sts2 = [] then ["Demonstrated effort in responses"] else sts2
          areasForImprovement :=
            if afs2 = [] then ["Continue practicing to improve"] else afs2
          overallFeedback :=
            if jsTrim fb = "" then
              "Thank you for your responses. Keep practicing to improve your interview skills."
            else jsTrim fb
          perQuestionEvaluations := some (pqs.map normalizePerQuestion) }
  | _, _, _, _, _, _, _ => none

/-- evaluateAnswers from aiClient.js.  As in the source, the per-question
count mismatch throw happens inside the same try block as every other
validation failure and is therefore caught and absorbed into the fallback
path.  Total: never raises to the caller. -/
def evaluateAnswers (outcome : ProviderOutcome RawEvaluation)
    (questions answers : List String) (r1 r2 r3 : Fin 15) : EvalResult :=
  match outcome with
  | .ok raw =>
    match normalizeEvaluation raw questions.length with
    | some ev => { evaluation := ev, usedFallback := false, model := some "gpt-4o-mini" }
    | none =>
      { evaluation := getFallbackEvaluation answers r1 r2 r3
        usedFallback := true, model := none }
  | _ =>
    { evaluation := getFallbackEvaluation answers r1 r2 r3
      usedFallback := true, model := none }

/-! ## interviewController.js -/

/-- Overall score computed by submitInterview: round of the mean of the
three overall sub-scores. -/
def submitOverallScore (e : Evaluation) : ℤ :=
  jsRound (((e.clarityScore + e.correctnessScore + e.communicationScore : ℤ) : ℚ) / 3)

/-- The post-hoc guard of submitInterview (lines 123-129): it answers 500
exactly when the evaluation carries a perQuestionEvaluations array whose
length differs from the question count.  A missing field (the fallback
shape) is falsy in JS, so the check passes vacuously. -/
def perQuestionMismatch (e : Evaluation) (questionCount : ℕ) : Bool :=
  match e.perQuestionEvaluations with
  | some l => l.length ≠ questionCount
  | none => false

/-- Mean of the three sub-scores of one per-question entry. -/
def questionAverage (pq : PerQuestionEval) : ℚ :=
  ((pq.clarityScore + pq.correctnessScore + pq.communicationScore : ℤ) : ℚ) / 3

/-- JS reduce keeping the first maximum (strict greater-than replaces). -/
def reduceMaxFirst (l : List (ℕ × ℚ)) : Option (ℕ × ℚ) :=
  match l with
  | [] => none
  | x :: xs => some (xs.foldl (fun m c => if c.2 > m.2 then c else m) x)

/-- JS reduce keeping the first minimum (strict less-than replaces). -/
def reduceMinFirst (l : List (ℕ × ℚ)) : Option (ℕ × ℚ) :=
  match l with
  | [] => none
  | x :: xs => some (xs.foldl (fun m c => if c.2 < m.2 then c else m) x)

/-- strongestQuestionIndex and weakestQuestionIndex of submitInterview:
computed only when perQuestionEvaluations is an array of the right length,
otherwise both stay null. -/
def strongestWeakestIdx (e : Evaluation) (questionCount : ℕ) : Option ℕ × Option ℕ :=
  match e.perQuestionEvaluations with
  | some l =>
    if l.length = questionCount then
      let avgs := (l.map questionAverage).enum
      ((reduceMaxFirst avgs).map Prod.fst, (reduceMinFirst avgs).map Prod.fst)
    else (none, none)
  | none => (none, none)

/-- Evaluation sub-scores as stored on a persisted session. -/
structure SessionEval where
  clarityScore : ℤ
  correctnessScore : ℤ
  communicationScore : ℤ
deriving DecidableEq, Repr

/-- A completed session row consumed by getInterviewAnalytics. -/
structure Session where
  overallScore : ℤ
  evaluation : Option SessionEval
  createdAt : ℤ
deriving DecidableEq, Repr

/-- The forEach accumulation of skillTotals: sessions without an evaluation
contribute nothing (the sub-score reads are guarded by `if (session.evaluation)`). -/
def skillTotals (sessions : List Session) : ℚ × ℚ × ℚ :=
  sessions.foldl
    (fun acc s =>
      match s.evaluation with
      | some e =>
        (acc.1 + (e.clarityScore : ℚ), acc.2.1 + (e.correctnessScore : ℚ),
         acc.2.2 + (e.communicationScore : ℚ))
      | none => acc)
    (0, 0, 0)

/-- strongestSkill of getInterviewAnalytics: averages divide by the TOTAL
session count, and the reduce starts from {skill: null, average: -Infinity}
(modelled by the `none` accumulator, smaller than every rational). -/
def strongestSkill (sessions : List Session) : Option String :=
  let n : ℚ := (sessions.length : ℚ)
  let t := skillTotals sessions
  let entries : List (String × ℚ) :=
    [("clarity", t.1 / n), ("correctness", t.2.1 / n), ("communication", t.2.2 / n)]
  (entries.foldl
    (fun acc e =>
      match acc.2 with
      | none => (some e.1, some e.2)
      | some m => if e.2 > m then (some e.1, some e.2) else acc)
    ((none : Option String), (none : Option ℚ))).1

/-- Mean overallScore of a session list (reduce then divide by length). -/
def meanOverall (sessions : List Session) : ℚ :=
  ((sessions.map (fun s => (s.overallScore : ℚ))).sum) / (sessions.length : ℚ)

/-- improvementTrend of getInterviewAnalytics: only computed for at least 4
sessions, split at floor(n/2), compare the two mean overall scores with a
margin of 5. -/
def improvementTrend (sessions : List Session) : String :=
  if 4 ≤ sessions.length then
    let midpoint := sessions.length / 2
    let older := sessions.take midpoint
    let recent := sessions.drop midpoint
    if meanOverall recent > meanOverall older + 5 then "improving"
    else if meanOverall recent < meanOverall older - 5 then "declining"
    else "stable"
  else "stable"

/-! ## rateLimiter.js -/

/-- The in-memory store: user id to recorded call timestamps (ms). -/
def RLMap : Type := List (String × List ℤ)

/-- Map.get of the JS store. -/
def mapGet (m : RLMap) (k : String) : Option (List ℤ) :=
  match m with
  | [] => none
  | (k2, v) :: rest => if k2 = k then some v else mapGet rest k

/-- Map.set of the JS store (replace an existing key, else append). -/
def mapSet (m : RLMap) (k : String) (v : List ℤ) : RLMap :=
  match m with
  | [] => [(k, v)]
  | (k2, v2) :: rest => if k2 = k then (k, v) :: rest else (k2, v2) :: mapSet rest k v

/-- The aiRateLimiter middleware with explicit maxRequests and windowMs
parameters.  Unauthenticated callers (user = none) pass straight through;
otherwise drop timestamps outside the trailing window, reject with no
mutation when the remaining count already reaches the budget, else record
the call and admit. -/
def aiRateLimiterWith (maxRequests : ℕ) (windowMs : ℤ) (m : RLMap)
    (user : Option String) (now : ℤ) : Bool × RLMap :=
  match user with
  | none => (true, m)
  | some u =>
    let windowStart := now - windowMs
    let ts := ((mapGet m u).getD []).filter (fun t => windowStart < t)
    if maxRequests ≤ ts.length then (false, m)
    else (true, mapSet m u (ts ++ [now]))

/-- The middleware at its default configuration (5 calls per 60000 ms), the
configuration installed on the interview routes. -/
def aiRateLimiter (m : RLMap) (user : Option String) (now : ℤ) : Bool × RLMap :=
  aiRateLimiterWith 5 60000 m user now

/-- Fold a sequence of calls from one user through the limiter, collecting
the admission decisions. -/
def rlRun (m : RLMap) (user : Option String) (times : List ℤ) : List Bool × RLMap :=
  times.foldl
    (fun acc t =>
      let r := aiRateLimiter acc.2 user t
      (acc.1 ++ [r.1], r.2))
    ([], m)

/-! ## Definitions taken from the words of the spec, for refinement claims -/

/-- Modelled from the spec (claim C6): the claimed quality weight, every
band keyed by the TRIMMED length. -/
def claimedQuality (a : String) : ℚ :=
  if (jsTrim a).length < 10 then 3/10
  else if (jsTrim a).length < 50 then 1/2
  else if (jsTrim a).length < 150 then 3/4
  else 9/10

/-- Amended description of the source weight bands: the lowest band by
trimmed length, the other two thresholds by raw length. -/
def amendedQuality (a : String) : ℚ :=
  if (jsTrim a).length < 10 then 3/10
  else if a.length < 50 then 1/2
  else if a.length < 150 then 3/4
  else 9/10

/-- Base score of the fallback evaluation, per the spec description. -/
def specBaseScore (answers : List String) : ℤ :=
  jsRound (50 + ((answers.map amendedQuality).sum / (answers.length : ℚ)) * 40)

/-- One fallback sub-score per the spec description: base plus a jitter in
[-7, 7], clamped into [40, 100]. -/
def specSubScore (answers : List String) (r : Fin 15) : ℤ :=
  min 100 (max 40 (specBaseScore answers + ((r.val : ℤ) - 7)))

/-- Sessions that carry an evaluation. -/
def evaluatedSessions (sessions : List Session) : List Session :=
  sessions.filter (fun s => s.evaluation.isSome)

/-- Modelled from the spec (claim C4): sum of one sub-score over the
sessions that carry an evaluation. -/
def specSkillSum : List Session → (SessionEval → ℤ) → ℚ
  | [], _ => 0
  | s :: rest, f =>
    match s.evaluation with
    | some e => (f e : ℚ) + specSkillSum rest f
    | none => specSkillSum rest f

/-- First-encountered argmax over the enumeration order clarity,
correctness, communication. -/
def pickSkill (a b c : ℚ) : String :=
  if b ≤ a ∧ c ≤ a then "clarity"
  else if c ≤ b then "correctness"
  else "communication"

/-- Modelled from the spec (claim C4): the skill with the highest mean
sub-score over the sessions that carry an evaluation, ties to the first
in the fixed order. -/
def specStrongestSkill (sessions : List Session) : String :=
  let k : ℚ := ((evaluatedSessions sessions).length : ℚ)
  pickSkill (specSkillSum sessions (fun e => e.clarityScore) / k)
    (specSkillSum sessions (fun e => e.correctnessScore) / k)
    (specSkillSum sessions (fun e => e.communicationScore) / k)

/-- Modelled from the spec (claim C9): the trend rule stated over an
ascending-by-time list. -/
def specTrend (sessions : List Session) : String :=
  if sessions.length < 4 then "stable"
  else
    let older := sessions.take (sessions.length / 2)
    let newer := sessions.drop (sessions.length / 2)
    if meanOverall older + 5 < meanOverall newer then "improving"
    else if meanOverall newer < meanOverall older - 5 then "declining"
    else "stable"

/-- Ascending-by-createdAt check for session lists. -/
def sortedByCreatedAt : List Session → Bool
  | [] => true
  | [_] => true
  | a :: b :: rest => (a.createdAt ≤ b.createdAt : Bool) && sortedByCreatedAt (b :: rest)

/-! ## Concrete inputs used to instantiate the claims -/

/-- Five question strings. -/
def fiveQ : List String := ["q1", "q2", "q3", "q4", "q5"]

/-- Five answer strings. -/
def fiveA : List String := ["a1", "a2", "a3", "a4", "a5"]

/-- A valid per-question payload entry. -/
def pqOk : RawPerQuestion :=
  { clarityScore := some 60, correctnessScore := some 60, communicationScore := some 60
    feedback := some "ok" }

/-- An otherwise valid evaluation payload whose clarityScore is 150. -/
def rawBad150 : RawEvaluation :=
  { clarityScore := some 150, correctnessScore := some 90, communicationScore := some 70
    strengths := some ["s"], areasForImprovement := some ["a"], overallFeedback := some "fb"
    perQuestionEvaluations := some [pqOk, pqOk, pqOk, pqOk, pqOk] }

/-- An otherwise valid evaluation payload with only 4 per-question entries
against 5 questions. -/
def rawMismatch : RawEvaluation :=
  { clarityScore := some 80, correctnessScore := some 90, communicationScore := some 70
    strengths := some ["s"], areasForImprovement := some ["a"], overallFeedback := some "fb"
    perQuestionEvaluations := some [pqOk, pqOk, pqOk, pqOk] }

/-- A fully valid evaluation payload for 5 questions. -/
def rawGoodE : RawEvaluation :=
  { clarityScore := some 80, correctnessScore := some 90, communicationScore := some 70
    strengths := some ["good structure"], areasForImprovement := some ["more detail"]
    overallFeedback := some "fine"
    perQuestionEvaluations := some [pqOk, pqOk, pqOk, pqOk, pqOk] }

/-- A valid question payload. -/
def rawGoodQ : RawQuestions :=
  { questions := some [some "q1", some "q2", some "q3", some "q4", some "q5"] }

/-- A question payload with only 4 entries. -/
def rawShortQ : RawQuestions :=
  { questions := some [some "q1", some "q2", some "q3", some "q4"] }

/-- An answer of raw length 50 whose trimmed length is 10: the bands of the
source and of the spec disagree on it. -/
def s50 : String := "".pushn 'x' 10 ++ "".pushn ' ' 40

/-- One completed session carrying no evaluation. -/
def sNoEval : Session := { overallScore := 50, evaluation := none, createdAt := 0 }

/-- One completed session carrying an evaluation with clarity strongest. -/
def sClarityBest : Session :=
  { overallScore := 80
    evaluation := some { clarityScore := 90, correctnessScore := 50, communicationScore := 50 }
    createdAt := 0 }

/-- Eight sessions in ascending time order scoring 50,50,50,50,90,90,90,90. -/
def ex9 : List Session :=
  [ { overallScore := 50, evaluation := none, createdAt := 0 }
  , { overallScore := 50, evaluation := none, createdAt := 1 }
  , { overallScore := 50, evaluation := none, createdAt := 2 }
  , { overallScore := 50, evaluation := none, createdAt := 3 }
  , { overallScore := 90, evaluation := none, createdAt := 4 }
  , { overallScore := 90, evaluation := none, createdAt := 5 }
  , { overallScore := 90, evaluation := none, createdAt := 6 }
  , { overallScore := 90, evaluation := none, createdAt := 7 } ]

/-- The normalized form of pqOk. -/
def pqNorm : PerQuestionEval :=
  { clarityScore := 60, correctnessScore := 60, communicationScore := 60, feedback := "ok" }

/-- The evaluation produced from rawGoodE on the provider path. -/
def evGoodE : Evaluation :=
  { clarityScore := 80, correctnessScore := 90, communicationScore := 70
    strengths := ["good structure"], areasForImprovement := ["more detail"]
    overallFeedback := "fine"
    perQuestionEvaluations := some [pqNorm, pqNorm, pqNorm, pqNorm, pqNorm] }

/-- An evaluation payload whose clarityScore is absent or non-numeric. -/
def noScoreRaw : RawEvaluation :=
  { clarityScore := none, correctnessScore := some 90, communicationScore := some 70
    strengths := some ["s"], areasForImprovement := some ["a"], overallFeedback := some "fb"
    perQuestionEvaluations := some [] }

/-! ## Helper lemmas -/

/-- Characterization of jsRound through the floor bounds. -/
theorem jsRound_eq {q : ℚ} {z : ℤ} (h1 : (z : ℚ) ≤ q + 1/2) (h2 : q + 1/2 < (z : ℚ) + 1) :
    jsRound q = z := by
  unfold jsRound
  rw [Int.floor_eq_iff]
  exact ⟨h1, h2⟩

/-! ## Claim C8 -/

/-- Claim C8: the admission controller admits exactly when fewer than 5 of
the recorded timestamps of the user lie inside the trailing 60-second
window; a rejection mutates nothing; anonymous callers always pass; and in
the concrete 7-call scenario the first five calls inside one minute are
admitted, the sixth is rejected and a call after the window has elapsed is
admitted again. -/
theorem claimC8 :
    (∀ (m : RLMap) (u : String) (now : ℤ),
      (aiRateLimiter m (some u) now).1 = true ↔
        (((mapGet m u).getD []).filter (fun t => now - 60000 < t)).length < 5) ∧
    (∀ (m : RLMap) (u : String) (now : ℤ),
      (aiRateLimiter m (some u) now).1 = false → (aiRateLimiter m (some u) now).2 = m) ∧
    (∀ (m : RLMap) (now : ℤ), aiRateLimiter m none now = (true, m)) ∧
    (rlRun [] (some "u") [0, 10, 20, 30, 40, 50, 60041]).1 =
      [true, true, true, true, true, false, true] := by
  refine ⟨?_, ?_, ?_, by decide⟩
  · intro m u now
    by_cases h : 5 ≤ (((mapGet m u).getD []).filter (fun t => now - 60000 < t)).length
    · simp only [aiRateLimiter, aiRateLimiterWith, h, if_true, if_pos]
      constructor
      · intro hc; exact absurd hc (by simp)
      · intro hc; omega
    · simp only [aiRateLimiter, aiRateLimiterWith, h, if_false, if_neg]
      constructor
      · intro _; omega
      · intro _; trivial
  · intro m u now h
    by_cases hc : 5 ≤ (((mapGet m u).getD []).filter (fun t => now - 60000 < t)).length
    · simp only [aiRateLimiter, aiRateLimiterWith, hc, if_pos]
    · simp only [aiRateLimiter, aiRateLimiterWith, hc, if_neg, if_false] at h
      exact absurd h (by simp)
  · intro m now; rfl

/-- Witness for claim C8: with five fresh timestamps recorded, a sixth call
inside the window is rejected and leaves the store untouched. -/
theorem claimC8_witness :
    (aiRateLimiter [("u", [0, 10, 20, 30, 40])] (some "u") 50).2 =
      [("u", [0, 10, 20, 30, 40])] :=
  claimC8.2.1 [("u", [0, 10, 20, 30, 40])] "u" 50 (by decide)

/-! ## Claim C5 -/

/-- Claim C5 as stated is false: for the unrecognized difficulty "expert"
and the technical role "engineer" the source does NOT return entries of the
easy-difficulty table of the classified category; it returns the easy
GENERAL list, ignoring the category. -/
theorem claimC5_counterexample :
    jsToLower "expert" ∉ (["easy", "medium", "hard"] : List String) ∧
    roleCategory (jsToLower "engineer") = "technical" ∧
    getFallbackQuestions "engineer" "expert" ≠ easyTable.technical.take 5 ∧
    getFallbackQuestions "engineer" "expert" = easyTable.general.take 5 := by
  exact ⟨by decide, by decide, by decide, by decide⟩

/-- Claim C5 amended: for every role, a difficulty whose lowercase form is
not one of easy, medium, hard falls back to the easy GENERAL table
regardless of the classified role category, and exactly 5 entries are
returned. -/
theorem claimC5_amended (role difficulty : String)
    (h : jsToLower difficulty ∉ (["easy", "medium", "hard"] : List String)) :
    getFallbackQuestions role difficulty = easyTable.general ∧
    (getFallbackQuestions role difficulty).length = 5 := by
  simp only [List.mem_cons, List.not_mem_nil, or_false, not_or] at h
  obtain ⟨h1, h2, h3⟩ := h
  have hd : difficultyLookup (jsToLower difficulty) = none := by
    unfold difficultyLookup
    rw [if_neg h1, if_neg h2, if_neg h3]
  have hq : getFallbackQuestions role difficulty = easyTable.general := by
    unfold getFallbackQuestions
    simp only [hd, Option.none_bind, Option.map_none']
    decide
  exact ⟨hq, by rw [hq]; decide⟩

/-- Witness for claim C5: a business role with an unrecognized difficulty
receives the five easy general questions. -/
theorem claimC5_amended_witness :
    getFallbackQuestions "Product Manager" "EXTREME" = easyTable.general ∧
    (getFallbackQuestions "Product Manager" "EXTREME").length = 5 :=
  claimC5_amended "Product Manager" "EXTREME" (by decide)

/-- If an evaluation has no per-question field, submitInterview leaves both
question indices null. -/
theorem strongestWeakestIdx_none (e : Evaluation) (qc : ℕ)
    (h : e.perQuestionEvaluations = none) : strongestWeakestIdx e qc = (none, none) := by
  unfold strongestWeakestIdx
  rw [h]

/-- If an evaluation has no per-question field, the post-hoc count check of
submitInterview passes. -/
theorem perQuestionMismatch_none (e : Evaluation) (qc : ℕ)
    (h : e.perQuestionEvaluations = none) : perQuestionMismatch e qc = false := by
  unfold perQuestionMismatch
  rw [h]

/-! ## Claim C10 -/

/-- Claim C10: whenever the evaluation path uses the fallback engine, the
returned evaluation has no perQuestionEvaluations field, submitInterview
records no strongest or weakest question index, and the post-hoc count
check of the controller passes vacuously. -/
theorem claimC10 (outcome : ProviderOutcome RawEvaluation) (qs ans : List String)
    (r1 r2 r3 : Fin 15)
    (h : (evaluateAnswers outcome qs ans r1 r2 r3).usedFallback = true) :
    (evaluateAnswers outcome qs ans r1 r2 r3).evaluation.perQuestionEvaluations = none ∧
    strongestWeakestIdx (evaluateAnswers outcome qs ans r1 r2 r3).evaluation qs.length =
      (none, none) ∧
    perQuestionMismatch (evaluateAnswers outcome qs ans r1 r2 r3).evaluation qs.length =
      false := by
  have step : ∀ raw : RawEvaluation,
      evaluateAnswers (.ok raw) qs ans r1 r2 r3 =
        (match normalizeEvaluation raw qs.length with
          | some ev =>
            { evaluation := ev, usedFallback := false, model := some "gpt-4o-mini" }
          | none =>
            { evaluation := getFallbackEvaluation ans r1 r2 r3
              usedFallback := true, model := none }) :=
    fun _ => rfl
  have hpq :
      (evaluateAnswers outcome qs ans r1 r2 r3).evaluation.perQuestionEvaluations = none := by
    cases outcome with
    | timeout => rfl
    | failure => rfl
    | ok raw =>
      rw [step raw] at h ⊢
      cases hn : normalizeEvaluation raw qs.length with
      | none => rfl
      | some ev =>
        rw [hn] at h
        exact absurd h (by simp)
  exact ⟨hpq, strongestWeakestIdx_none _ _ hpq, perQuestionMismatch_none _ _ hpq⟩

/-- Witness for claim C10 at a concrete timed-out call. -/
theorem claimC10_witness :
    (evaluateAnswers .timeout fiveQ fiveA 0 0 0).evaluation.perQuestionEvaluations = none ∧
    strongestWeakestIdx (evaluateAnswers .timeout fiveQ fiveA 0 0 0).evaluation
      fiveQ.length = (none, none) ∧
    perQuestionMismatch (evaluateAnswers .timeout fiveQ fiveA 0 0 0).evaluation
      fiveQ.length = false :=
  claimC10 .timeout fiveQ fiveA 0 0 0 rfl

/-! ## Claim C7 -/

/-- Claim C7: neither gateway function raises (both are total functions of
the modelled outcome); on timeout, provider failure or validation failure
they return exactly the fallback result with usedFallback true and no
model identifier, and on provider success that passes validation they
return usedFallback false with the model identifier attached. -/
theorem claimC7 :
    (∀ (role difficulty : String),
      generateQuestions .timeout role difficulty =
        { questions := getFallbackQuestions role difficulty
          usedFallback := true, model := none }) ∧
    (∀ (role difficulty : String),
      generateQuestions .failure role difficulty =
        { questions := getFallbackQuestions role difficulty
          usedFallback := true, model := none }) ∧
    (∀ (raw : RawQuestions) (role difficulty : String),
      normalizeQuestions raw = none →
      generateQuestions (.ok raw) role difficulty =
        { questions := getFallbackQuestions role difficulty
          usedFallback := true, model := none }) ∧
    (∀ (raw : RawQuestions) (qs : List String) (role difficulty : String),
      normalizeQuestions raw = some qs →
      generateQuestions (.ok raw) role difficulty =
        { questions := qs, usedFallback := false, model := some "gpt-4o-mini" }) ∧
    (∀ (qs ans : List String) (r1 r2 r3 : Fin 15),
      evaluateAnswers .timeout qs ans r1 r2 r3 =
        { evaluation := getFallbackEvaluation ans r1 r2 r3
          usedFallback := true, model := none }) ∧
    (∀ (qs ans : List String) (r1 r2 r3 : Fin 15),
      evaluateAnswers .failure qs ans r1 r2 r3 =
        { evaluation := getFallbackEvaluation ans r1 r2 r3
          usedFallback := true, model := none }) ∧
    (∀ (raw : RawEvaluation) (qs ans : List String) (r1 r2 r3 : Fin 15),
      normalizeEvaluation raw qs.length = none →
      evaluateAnswers (.ok raw) qs ans r1 r2 r3 =
        { evaluation := getFallbackEvaluation ans r1 r2 r3
          usedFallback := true, model := none }) ∧
    (∀ (raw : RawEvaluation) (ev : Evaluation) (qs ans : List String) (r1 r2 r3 : Fin 15),
      normalizeEvaluation raw qs.length = some ev →
      evaluateAnswers (.ok raw) qs ans r1 r2 r3 =
        { evaluation := ev, usedFallback := false, model := some "gpt-4o-mini" }) := by
  refine ⟨fun _ _ => rfl, fun _ _ => rfl, ?_, ?_, fun _ _ _ _ _ => rfl,
    fun _ _ _ _ _ => rfl, ?_, ?_⟩
  · intro raw role difficulty hn
    simp only [generateQuestions, hn]
  · intro raw qs role difficulty hn
    simp only [generateQuestions, hn]
  · intro raw qs ans r1 r2 r3 hn
    have step :
        evaluateAnswers (.ok raw) qs ans r1 r2 r3 =
          (match normalizeEvaluation raw qs.length with
            | some ev =>
              { evaluation := ev, usedFallback := false, model := some "gpt-4o-mini" }
            | none =>
              { evaluation := getFallbackEvaluation ans r1 r2 r3
                usedFallback := true, model := none }) := rfl
    rw [step, hn]
  · intro raw ev qs ans r1 r2 r3 hn
    have step :
        evaluateAnswers (.ok raw) qs ans r1 r2 r3 =
          (match normalizeEvaluation raw qs.length with
            | some ev2 =>
              { evaluation := ev2, usedFallback := false, model := some "gpt-4o-mini" }
            | none =>
              { evaluation := getFallbackEvaluation ans r1 r2 r3
                usedFallback := true, model := none }) := rfl
    rw [step, hn]

/-- normScore is plain rounding on an in-range score. -/
theorem normScore_id {q : ℚ} (h0 : 0 ≤ q) (h100 : q ≤ 100) : normScore q = jsRound q := by
  unfold normScore
  rw [min_eq_right h100, max_eq_right h0]

/-- Evaluate normScore at a concrete in-range value. -/
theorem normScore_eq {q : ℚ} {z : ℤ} (h0 : 0 ≤ q) (h100 : q ≤ 100) (hr : jsRound q = z) :
    normScore q = z := by
  rw [normScore_id h0 h100, hr]

/-- The validation-and-normalization pipeline written out on an explicit
payload record, for equational reasoning. -/
theorem normalizeEvaluation_mk (c co cm : ℚ) (sts afs : List String) (fb : String)
    (pqs : List RawPerQuestion) (qc : ℕ) :
    normalizeEvaluation ⟨some c, some co, some cm, some sts, some afs, some fb, some pqs⟩ qc =
      (if c < 0 ∨ 100 < c ∨ co < 0 ∨ 100 < co ∨ cm < 0 ∨ 100 < cm then none
       else if pqs.length ≠ qc then none
       else if ¬ pqs.all RawPerQuestion.valid then none
       else
         some
           { clarityScore := normScore c
             correctnessScore := normScore co
             communicationScore := normScore cm
             strengths :=
               if sts.filter (fun s => 0 < (jsTrim s).length) = [] then
                 ["Demonstrated effort in responses"]
               else sts.filter (fun s => 0 < (jsTrim s).length)
             areasForImprovement :=
               if afs.filter (fun s => 0 < (jsTrim s).length) = [] then
                 ["Continue practicing to improve"]
               else afs.filter (fun s => 0 < (jsTrim s).length)
             overallFeedback :=
               if jsTrim fb = "" then
                 "Thank you for your responses. Keep practicing to improve your interview skills."
               else jsTrim fb
             perQuestionEvaluations := some (pqs.map normalizePerQuestion) }) := rfl

/-- pqOk passes the per-entry validation. -/
theorem pqOk_valid : RawPerQuestion.valid pqOk = true := by
  show decide ((0:ℚ) ≤ 60 ∧ (60:ℚ) ≤ 100 ∧ (0:ℚ) ≤ 60 ∧ (60:ℚ) ≤ 100 ∧
      (0:ℚ) ≤ 60 ∧ (60:ℚ) ≤ 100) = true
  rw [decide_eq_true_eq]
  norm_num

/-- pqOk normalizes to pqNorm. -/
theorem normalizePerQuestion_pqOk : normalizePerQuestion pqOk = pqNorm := by
  show ({ clarityScore := normScore (60:ℚ), correctnessScore := normScore (60:ℚ)
          communicationScore := normScore (60:ℚ)
          feedback :=
            if jsTrim "ok" = "" then "No specific feedback provided." else jsTrim "ok" } :
      PerQuestionEval) = pqNorm
  rw [@normScore_eq 60 60 (by norm_num) (by norm_num)
      (@jsRound_eq 60 60 (by norm_num) (by norm_num)),
    if_neg (by decide)]
  rfl

/-- The good payload passes validation and normalizes to evGoodE. -/
theorem normEval_rawGoodE : normalizeEvaluation rawGoodE 5 = some evGoodE := by
  show normalizeEvaluation
    ⟨some 80, some 90, some 70, some ["good structure"], some ["more detail"], some "fine",
      some [pqOk, pqOk, pqOk, pqOk, pqOk]⟩ 5 = some evGoodE
  rw [normalizeEvaluation_mk]
  rw [if_neg (by norm_num), if_neg (by decide),
    if_neg (by simp [List.all_cons, List.all_nil, pqOk_valid])]
  rw [@normScore_eq 80 80 (by norm_num) (by norm_num)
      (@jsRound_eq 80 80 (by norm_num) (by norm_num)),
    @normScore_eq 90 90 (by norm_num) (by norm_num)
      (@jsRound_eq 90 90 (by norm_num) (by norm_num)),
    @normScore_eq 70 70 (by norm_num) (by norm_num)
      (@jsRound_eq 70 70 (by norm_num) (by norm_num))]
  rw [List.map_cons, List.map_cons, List.map_cons, List.map_cons, List.map_cons,
    List.map_nil, normalizePerQuestion_pqOk]
  rw [if_neg (by decide), if_neg (by decide), if_neg (by decide)]
  rfl

/-- Witness for claim C7: a 4-entry question payload falls back; a valid
5-entry payload is returned on the provider path; an evaluation payload
missing a score falls back; the fully valid evaluation payload is returned
on the provider path. -/
theorem claimC7_witness :
    generateQuestions (.ok rawShortQ) "engineer" "easy" =
      { questions := getFallbackQuestions "engineer" "easy"
        usedFallback := true, model := none } ∧
    generateQuestions (.ok rawGoodQ) "engineer" "easy" =
      { questions := fiveQ, usedFallback := false, model := some "gpt-4o-mini" } ∧
    evaluateAnswers (.ok noScoreRaw) fiveQ fiveA 0 0 0 =
      { evaluation := getFallbackEvaluation fiveA 0 0 0
        usedFallback := true, model := none } ∧
    evaluateAnswers (.ok rawGoodE) fiveQ fiveA 0 0 0 =
      { evaluation := evGoodE, usedFallback := false, model := some "gpt-4o-mini" } :=
  ⟨claimC7.2.2.1 rawShortQ "engineer" "easy" (by decide),
   claimC7.2.2.2.1 rawGoodQ fiveQ "engineer" "easy" (by decide),
   claimC7.2.2.2.2.2.2.1 noScoreRaw fiveQ fiveA 0 0 0 rfl,
   claimC7.2.2.2.2.2.2.2 rawGoodE evGoodE fiveQ fiveA 0 0 0 normEval_rawGoodE⟩

/-- evaluateAnswers on a parsed payload that fails validation returns
exactly the fallback result. -/
theorem evalAnswers_ok_none (raw : RawEvaluation) (qs ans : List String) (r1 r2 r3 : Fin 15)
    (hn : normalizeEvaluation raw qs.length = none) :
    evaluateAnswers (.ok raw) qs ans r1 r2 r3 =
      { evaluation := getFallbackEvaluation ans r1 r2 r3
        usedFallback := true, model := none } := by
  have step :
      evaluateAnswers (.ok raw) qs ans r1 r2 r3 =
        (match normalizeEvaluation raw qs.length with
          | some ev =>
            { evaluation := ev, usedFallback := false, model := some "gpt-4o-mini" }
          | none =>
            { evaluation := getFallbackEvaluation ans r1 r2 r3
              usedFallback := true, model := none }) := rfl
  rw [step, hn]

/-- evaluateAnswers on a payload that passes validation returns the
normalized evaluation on the provider path. -/
theorem evalAnswers_ok_some (raw : RawEvaluation) (ev : Evaluation) (qs ans : List String)
    (r1 r2 r3 : Fin 15) (hn : normalizeEvaluation raw qs.length = some ev) :
    evaluateAnswers (.ok raw) qs ans r1 r2 r3 =
      { evaluation := ev, usedFallback := false, model := some "gpt-4o-mini" } := by
  have step :
      evaluateAnswers (.ok raw) qs ans r1 r2 r3 =
        (match normalizeEvaluation raw qs.length with
          | some ev2 =>
            { evaluation := ev2, usedFallback := false, model := some "gpt-4o-mini" }
          | none =>
            { evaluation := getFallbackEvaluation ans r1 r2 r3
              usedFallback := true, model := none }) := rfl
  rw [step, hn]

/-- Every evaluation accepted by validation carries a per-question array of
exactly the question count. -/
theorem normalizeEvaluation_some_shape (raw : RawEvaluation) (qc : ℕ) (ev : Evaluation)
    (h : normalizeEvaluation raw qc = some ev) :
    ∃ pqs : List RawPerQuestion, pqs.length = qc ∧
      ev.perQuestionEvaluations = some (pqs.map normalizePerQuestion) := by
  rcases raw with ⟨oc, oco, ocm, osts, oafs, ofb, opq⟩
  rcases oc with _ | c
  · exact Option.noConfusion h
  rcases oco with _ | co
  · exact Option.noConfusion h
  rcases ocm with _ | cm
  · exact Option.noConfusion h
  rcases osts with _ | sts
  · exact Option.noConfusion h
  rcases oafs with _ | afs
  · exact Option.noConfusion h
  rcases ofb with _ | fb
  · exact Option.noConfusion h
  rcases opq with _ | pqs
  · exact Option.noConfusion h
  rw [normalizeEvaluation_mk] at h
  split_ifs at h with h1 h2 h3
  all_goals
    first
      | exact Option.noConfusion h
      | (have hev := Option.some_inj.mp h
         subst hev
         exact ⟨pqs, not_ne_iff.mp h2, rfl⟩)

/-! ## Claim C1 -/

/-- Claim C1 as stated is false: on a payload whose per-question array has
4 entries against 5 questions (and is otherwise valid), evaluateAnswers
absorbs the mismatch into the fallback path — the throw at line 258 lands
in the same catch as every other failure — and the post-hoc controller
check then passes vacuously, so no error reaches the caller. -/
theorem claimC1_counterexample :
    rawMismatch.perQuestionEvaluations = some [pqOk, pqOk, pqOk, pqOk] ∧
    fiveQ.length = 5 ∧
    (evaluateAnswers (.ok rawMismatch) fiveQ fiveA 0 0 0).usedFallback = true ∧
    (evaluateAnswers (.ok rawMismatch) fiveQ fiveA 0 0 0).model = none ∧
    perQuestionMismatch (evaluateAnswers (.ok rawMismatch) fiveQ fiveA 0 0 0).evaluation
      fiveQ.length = false := by
  have hn : normalizeEvaluation rawMismatch fiveQ.length = none := by
    show normalizeEvaluation
      ⟨some 80, some 90, some 70, some ["s"], some ["a"], some "fb",
        some [pqOk, pqOk, pqOk, pqOk]⟩ 5 = none
    rw [normalizeEvaluation_mk, if_neg (by norm_num), if_pos (by decide)]
  have he := evalAnswers_ok_none rawMismatch fiveQ fiveA 0 0 0 hn
  refine ⟨rfl, rfl, ?_, ?_, ?_⟩
  · rw [he]
  · rw [he]
  · rw [he]
    exact perQuestionMismatch_none _ _ rfl

/-- Claim C1 amended: a per-question count mismatch in a parsed provider
payload is treated like every other validation failure — absorbed into the
fallback path with usedFallback true and no model identifier — and the
post-hoc mismatch check of submitInterview reports no error on any result
of evaluateAnswers (the fallback shape has no per-question array, the
provider shape always has one of matching length). -/
theorem claimC1_amended :
    (∀ (c co cm : ℚ) (sts afs : List String) (fb : String) (pqs : List RawPerQuestion)
        (qs ans : List String) (r1 r2 r3 : Fin 15),
      pqs.length ≠ qs.length →
      evaluateAnswers
          (.ok ⟨some c, some co, some cm, some sts, some afs, some fb, some pqs⟩)
          qs ans r1 r2 r3 =
        { evaluation := getFallbackEvaluation ans r1 r2 r3
          usedFallback := true, model := none }) ∧
    (∀ (outcome : ProviderOutcome RawEvaluation) (qs ans : List String) (r1 r2 r3 : Fin 15),
      perQuestionMismatch (evaluateAnswers outcome qs ans r1 r2 r3).evaluation
        qs.length = false) := by
  constructor
  · intro c co cm sts afs fb pqs qs ans r1 r2 r3 hne
    apply evalAnswers_ok_none
    rw [normalizeEvaluation_mk]
    by_cases hb : c < 0 ∨ 100 < c ∨ co < 0 ∨ 100 < co ∨ cm < 0 ∨ 100 < cm
    · rw [if_pos hb]
    · rw [if_neg hb, if_pos hne]
  · intro outcome qs ans r1 r2 r3
    cases outcome with
    | timeout => exact perQuestionMismatch_none _ _ rfl
    | failure => exact perQuestionMismatch_none _ _ rfl
    | ok raw =>
      cases hn : normalizeEvaluation raw qs.length with
      | none =>
        rw [evalAnswers_ok_none raw qs ans r1 r2 r3 hn]
        exact perQuestionMismatch_none _ _ rfl
      | some ev =>
        rw [evalAnswers_ok_some raw ev qs ans r1 r2 r3 hn]
        obtain ⟨pqs, hlen, hpq⟩ := normalizeEvaluation_some_shape raw qs.length ev hn
        unfold perQuestionMismatch
        rw [hpq]
        simp [hlen]

/-- Witness for claim C1 at the concrete mismatched payload. -/
theorem claimC1_amended_witness :
    evaluateAnswers
        (.ok ⟨some 80, some 90, some 70, some ["s"], some ["a"], some "fb",
          some [pqOk, pqOk, pqOk, pqOk]⟩)
        fiveQ fiveA 0 0 0 =
      { evaluation := getFallbackEvaluation fiveA 0 0 0
        usedFallback := true, model := none } :=
  claimC1_amended.1 80 90 70 ["s"] ["a"] "fb" [pqOk, pqOk, pqOk, pqOk] fiveQ fiveA 0 0 0
    (by decide)

/-! ## Claim C2 -/

/-- Claim C2 as stated is false: a payload whose scores are all numeric,
otherwise fully valid and with a matching per-question count, but whose
clarityScore is 150, is NOT clamped and returned on the provider path —
the range check at line 238 throws and the call falls back. -/
theorem claimC2_counterexample :
    rawBad150.clarityScore = some 150 ∧
    (evaluateAnswers (.ok rawBad150) fiveQ fiveA 0 0 0).usedFallback = true ∧
    (evaluateAnswers (.ok rawBad150) fiveQ fiveA 0 0 0).model = none := by
  have hn : normalizeEvaluation rawBad150 fiveQ.length = none := by
    show normalizeEvaluation
      ⟨some 150, some 90, some 70, some ["s"], some ["a"], some "fb",
        some [pqOk, pqOk, pqOk, pqOk, pqOk]⟩ 5 = none
    rw [normalizeEvaluation_mk, if_pos (by norm_num)]
  have he := evalAnswers_ok_none rawBad150 fiveQ fiveA 0 0 0 hn
  refine ⟨rfl, ?_, ?_⟩ <;> rw [he]

/-- Claim C2 amended: an overall score outside [0, 100] causes the payload
to be rejected and absorbed into the fallback path; when every overall
score lies within [0, 100] (and the payload is otherwise valid with a
matching per-question count) the result is returned on the provider path
with each overall score rounded to the nearest integer (clamping is a
no-op in range). -/
theorem claimC2_amended :
    (∀ (c co cm : ℚ) (sts afs : List String) (fb : String) (pqs : List RawPerQuestion)
        (qs ans : List String) (r1 r2 r3 : Fin 15),
      0 ≤ c → c ≤ 100 → 0 ≤ co → co ≤ 100 → 0 ≤ cm → cm ≤ 100 →
      pqs.length = qs.length → pqs.all RawPerQuestion.valid = true →
      (evaluateAnswers
          (.ok ⟨some c, some co, some cm, some sts, some afs, some fb, some pqs⟩)
          qs ans r1 r2 r3).usedFallback = false ∧
      (evaluateAnswers
          (.ok ⟨some c, some co, some cm, some sts, some afs, some fb, some pqs⟩)
          qs ans r1 r2 r3).model = some "gpt-4o-mini" ∧
      (evaluateAnswers
          (.ok ⟨some c, some co, some cm, some sts, some afs, some fb, some pqs⟩)
          qs ans r1 r2 r3).evaluation.clarityScore = jsRound c ∧
      (evaluateAnswers
          (.ok ⟨some c, some co, some cm, some sts, some afs, some fb, some pqs⟩)
          qs ans r1 r2 r3).evaluation.correctnessScore = jsRound co ∧
      (evaluateAnswers
          (.ok ⟨some c, some co, some cm, some sts, some afs, some fb, some pqs⟩)
          qs ans r1 r2 r3).evaluation.communicationScore = jsRound cm) ∧
    (∀ (c co cm : ℚ) (sts afs : List String) (fb : String) (pqs : List RawPerQuestion)
        (qs ans : List String) (r1 r2 r3 : Fin 15),
      (c < 0 ∨ 100 < c ∨ co < 0 ∨ 100 < co ∨ cm < 0 ∨ 100 < cm) →
      (evaluateAnswers
          (.ok ⟨some c, some co, some cm, some sts, some afs, some fb, some pqs⟩)
          qs ans r1 r2 r3).usedFallback = true ∧
      (evaluateAnswers
          (.ok ⟨some c, some co, some cm, some sts, some afs, some fb, some pqs⟩)
          qs ans r1 r2 r3).model = none) := by
  constructor
  · intro c co cm sts afs fb pqs qs ans r1 r2 r3 h0c h1c h0co h1co h0cm h1cm hlen hall
    have hn :
        normalizeEvaluation ⟨some c, some co, some cm, some sts, some afs, some fb, some pqs⟩
          qs.length = some
            { clarityScore := normScore c
              correctnessScore := normScore co
              communicationScore := normScore cm
              strengths :=
                if sts.filter (fun s => 0 < (jsTrim s).length) = [] then
                  ["Demonstrated effort in responses"]
                else sts.filter (fun s => 0 < (jsTrim s).length)
              areasForImprovement :=
                if afs.filter (fun s => 0 < (jsTrim s).length) = [] then
                  ["Continue practicing to improve"]
                else afs.filter (fun s => 0 < (jsTrim s).length)
              overallFeedback :=
                if jsTrim fb = "" then
                  "Thank you for your responses. Keep practicing to improve your interview skills."
                else jsTrim fb
              perQuestionEvaluations := some (pqs.map normalizePerQuestion) } := by
      rw [normalizeEvaluation_mk]
      rw [if_neg (by simp only [not_or, not_lt]; exact ⟨h0c, h1c, h0co, h1co, h0cm, h1cm⟩),
        if_neg (by simp [hlen]), if_neg (by simp [hall])]
    rw [evalAnswers_ok_some _ _ _ _ _ _ _ hn]
    exact ⟨rfl, rfl, normScore_id h0c h1c, normScore_id h0co h1co, normScore_id h0cm h1cm⟩
  · intro c co cm sts afs fb pqs qs ans r1 r2 r3 hb
    have hn :
        normalizeEvaluation ⟨some c, some co, some cm, some sts, some afs, some fb, some pqs⟩
          qs.length = none := by
      rw [normalizeEvaluation_mk, if_pos hb]
    rw [evalAnswers_ok_none _ _ _ _ _ _ hn]
    exact ⟨rfl, rfl⟩

/-- Witness for claim C2: a payload with in-range fractional scores is
returned on the provider path with the scores rounded. -/
theorem claimC2_amended_witness :
    (evaluateAnswers
        (.ok ⟨some 80, some 90, some 70, some ["s"], some ["a"], some "fb",
          some [pqOk, pqOk, pqOk, pqOk, pqOk]⟩)
        fiveQ fiveA 0 0 0).usedFallback = false ∧
    (evaluateAnswers
        (.ok ⟨some 80, some 90, some 70, some ["s"], some ["a"], some "fb",
          some [pqOk, pqOk, pqOk, pqOk, pqOk]⟩)
        fiveQ fiveA 0 0 0).model = some "gpt-4o-mini" ∧
    (evaluateAnswers
        (.ok ⟨some 80, some 90, some 70, some ["s"], some ["a"], some "fb",
          some [pqOk, pqOk, pqOk, pqOk, pqOk]⟩)
        fiveQ fiveA 0 0 0).evaluation.clarityScore = jsRound 80 ∧
    (evaluateAnswers
        (.ok ⟨some 80, some 90, some 70, some ["s"], some ["a"], some "fb",
          some [pqOk, pqOk, pqOk, pqOk, pqOk]⟩)
        fiveQ fiveA 0 0 0).evaluation.correctnessScore = jsRound 90 ∧
    (evaluateAnswers
        (.ok ⟨some 80, some 90, some 70, some ["s"], some ["a"], some "fb",
          some [pqOk, pqOk, pqOk, pqOk, pqOk]⟩)
        fiveQ fiveA 0 0 0).evaluation.communicationScore = jsRound 70 :=
  claimC2_amended.1 80 90 70 ["s"] ["a"] "fb" [pqOk, pqOk, pqOk, pqOk, pqOk] fiveQ fiveA 0 0 0
    (by norm_num) (by norm_num) (by norm_num) (by norm_num) (by norm_num) (by norm_num)
    (by decide) (by simp [List.all_cons, List.all_nil, pqOk_valid])

/-! ## Claim C3 -/

/-- The clamp used for the fallback sub-scores stays within [0, 100]. -/
theorem clamp_bounds (x : ℤ) : 0 ≤ min 100 (max 40 x) ∧ min 100 (max 40 x) ≤ 100 := by
  omega

/-- Substituting a default on the empty list never returns the empty list. -/
theorem ite_default_ne_nil {l : List String} {d : String} [Decidable (l = [])] :
    (if l = [] then [d] else l) ≠ [] := by
  split_ifs with h
  · simp
  · exact h

/-- Claim C3: for every answer set (non-empty, one answer per question),
the fallback evaluation scores all lie in [0, 100], the strengths and
areasForImprovement lists are never empty, and the overall score derived
by submitInterview equals the rounded mean of the three sub-scores. -/
theorem claimC3 (answers : List String) (r1 r2 r3 : Fin 15) (h : answers ≠ []) :
    0 ≤ (getFallbackEvaluation answers r1 r2 r3).clarityScore ∧
    (getFallbackEvaluation answers r1 r2 r3).clarityScore ≤ 100 ∧
    0 ≤ (getFallbackEvaluation answers r1 r2 r3).correctnessScore ∧
    (getFallbackEvaluation answers r1 r2 r3).correctnessScore ≤ 100 ∧
    0 ≤ (getFallbackEvaluation answers r1 r2 r3).communicationScore ∧
    (getFallbackEvaluation answers r1 r2 r3).communicationScore ≤ 100 ∧
    (getFallbackEvaluation answers r1 r2 r3).strengths ≠ [] ∧
    (getFallbackEvaluation answers r1 r2 r3).areasForImprovement ≠ [] ∧
    submitOverallScore (getFallbackEvaluation answers r1 r2 r3) =
      jsRound
        ((((getFallbackEvaluation answers r1 r2 r3).clarityScore +
            (getFallbackEvaluation answers r1 r2 r3).correctnessScore +
            (getFallbackEvaluation answers r1 r2 r3).communicationScore : ℤ) : ℚ) / 3) :=
  ⟨(clamp_bounds _).1, (clamp_bounds _).2,
   (clamp_bounds _).1, (clamp_bounds _).2,
   (clamp_bounds _).1, (clamp_bounds _).2,
   ite_default_ne_nil, ite_default_ne_nil, rfl⟩

/-- Witness for claim C3 at a concrete answer list. -/
theorem claimC3_witness :
    0 ≤ (getFallbackEvaluation ["hello"] 0 0 0).clarityScore ∧
    (getFallbackEvaluation ["hello"] 0 0 0).clarityScore ≤ 100 ∧
    0 ≤ (getFallbackEvaluation ["hello"] 0 0 0).correctnessScore ∧
    (getFallbackEvaluation ["hello"] 0 0 0).correctnessScore ≤ 100 ∧
    0 ≤ (getFallbackEvaluation ["hello"] 0 0 0).communicationScore ∧
    (getFallbackEvaluation ["hello"] 0 0 0).communicationScore ≤ 100 ∧
    (getFallbackEvaluation ["hello"] 0 0 0).strengths ≠ [] ∧
    (getFallbackEvaluation ["hello"] 0 0 0).areasForImprovement ≠ [] ∧
    submitOverallScore (getFallbackEvaluation ["hello"] 0 0 0) =
      jsRound
        ((((getFallbackEvaluation ["hello"] 0 0 0).clarityScore +
            (getFallbackEvaluation ["hello"] 0 0 0).correctnessScore +
            (getFallbackEvaluation ["hello"] 0 0 0).communicationScore : ℤ) : ℚ) / 3) :=
  claimC3 ["hello"] 0 0 0 (by decide)

/-! ## Claim C6 -/

/-- Claim C6 as stated is false: the source keys only the lowest band on
the trimmed length; the 50 and 150 thresholds compare the RAW length.  On
an answer of 10 letters padded with 40 spaces (raw length 50, trimmed
length 10) the source weight is 0.75 while the claimed weight is 0.5, so
with zero jitter the clarity sub-score is 80 where the claim predicts 70. -/
theorem claimC6_counterexample :
    (jsTrim s50).length = 10 ∧
    s50.length = 50 ∧
    answerQuality s50 = 3/4 ∧
    claimedQuality s50 = 1/2 ∧
    (getFallbackEvaluation [s50] 7 7 7).clarityScore = 80 ∧
    min 100 (max 40 (jsRound (50 + (([s50].map claimedQuality).sum / (([s50].length : ℕ) : ℚ)) * 40) +
      (((7 : Fin 15).val : ℤ) - 7))) = 70 := by
  have hq : answerQuality s50 = 3/4 := by
    unfold answerQuality
    rw [if_neg (by decide), if_neg (by decide), if_pos (by decide)]
  have hcq : claimedQuality s50 = 1/2 := by
    unfold claimedQuality
    rw [if_neg (by decide), if_pos (by decide)]
  have hav : averageQuality [s50] = 3/4 := by
    unfold averageQuality
    rw [List.map_cons, List.map_nil, hq]
    norm_num
  have hbase : jsRound (50 + averageQuality [s50] * 40) = 80 := by
    rw [hav]
    exact @jsRound_eq (50 + 3/4 * 40) 80 (by norm_num) (by norm_num)
  have hclar : (getFallbackEvaluation [s50] 7 7 7).clarityScore = 80 := by
    have hp : (getFallbackEvaluation [s50] 7 7 7).clarityScore =
        min 100 (max 40 (jsRound (50 + averageQuality [s50] * 40) +
          (((7 : Fin 15).val : ℕ) : ℤ) - 7)) := rfl
    rw [hp, hbase]
    decide
  refine ⟨by decide, by decide, hq, hcq, hclar, ?_⟩
  rw [List.map_cons, List.map_nil, hcq]
  have hhalf : List.sum [(1:ℚ)/2] / (([s50].length : ℕ) : ℚ) = 1/2 := by
    rw [List.sum_cons, List.sum_nil]
    norm_num [s50]
  rw [hhalf]
  rw [@jsRound_eq (50 + 1/2 * 40) 70 (by norm_num) (by norm_num)]
  decide

/-- Claim C6 amended: the quality weight uses the trimmed length only for
the lowest band (empty or whitespace-only answers always land there); the
0.5 and 0.75 bands are keyed on the RAW length; and each sub-score is the
clamped base-plus-jitter exactly as claimed. -/
theorem claimC6_amended (answers : List String) (r1 r2 r3 : Fin 15) (h : answers ≠ []) :
    (∀ a, jsTrim a = "" → answerQuality a = 3/10) ∧
    (getFallbackEvaluation answers r1 r2 r3).clarityScore = specSubScore answers r1 ∧
    (getFallbackEvaluation answers r1 r2 r3).correctnessScore = specSubScore answers r2 ∧
    (getFallbackEvaluation answers r1 r2 r3).communicationScore = specSubScore answers r3 := by
  have hfun : amendedQuality = answerQuality := rfl
  refine ⟨?_, ?_, ?_, ?_⟩
  · intro a ha
    unfold answerQuality
    rw [ha, if_pos (by decide)]
  · show min 100 (max 40 (jsRound (50 + averageQuality answers * 40) + ((r1.val : ℕ) : ℤ) - 7)) =
        min 100 (max 40 (specBaseScore answers + (((r1.val : ℕ) : ℤ) - 7)))
    have hb : specBaseScore answers = jsRound (50 + averageQuality answers * 40) := rfl
    rw [hb]
    generalize jsRound (50 + averageQuality answers * 40) = b
    omega
  · show min 100 (max 40 (jsRound (50 + averageQuality answers * 40) + ((r2.val : ℕ) : ℤ) - 7)) =
        min 100 (max 40 (specBaseScore answers + (((r2.val : ℕ) : ℤ) - 7)))
    have hb : specBaseScore answers = jsRound (50 + averageQuality answers * 40) := rfl
    rw [hb]
    generalize jsRound (50 + averageQuality answers * 40) = b
    omega
  · show min 100 (max 40 (jsRound (50 + averageQuality answers * 40) + ((r3.val : ℕ) : ℤ) - 7)) =
        min 100 (max 40 (specBaseScore answers + (((r3.val : ℕ) : ℤ) - 7)))
    have hb : specBaseScore answers = jsRound (50 + averageQuality answers * 40) := rfl
    rw [hb]
    generalize jsRound (50 + averageQuality answers * 40) = b
    omega

/-- Witness for claim C6 at a concrete answer list and jitter draws. -/
theorem claimC6_amended_witness :
    (∀ a, jsTrim a = "" → answerQuality a = 3/10) ∧
    (getFallbackEvaluation ["hello world"] 3 5 9 ).clarityScore =
      specSubScore ["hello world"] 3 ∧
    (getFallbackEvaluation ["hello world"] 3 5 9 ).correctnessScore =
      specSubScore ["hello world"] 5 ∧
    (getFallbackEvaluation ["hello world"] 3 5 9 ).communicationScore =
      specSubScore ["hello world"] 9 :=
  claimC6_amended ["hello world"] 3 5 9 (by decide)

/-! ## Claim C4 -/

/-- The skillTotals fold with an arbitrary accumulator adds the per-skill
sums over the sessions carrying an evaluation. -/
theorem skillFold_aux (sessions : List Session) (acc : ℚ × ℚ × ℚ) :
    sessions.foldl
      (fun acc s =>
        match s.evaluation with
        | some e =>
          (acc.1 + (e.clarityScore : ℚ), acc.2.1 + (e.correctnessScore : ℚ),
           acc.2.2 + (e.communicationScore : ℚ))
        | none => acc)
      acc =
      (acc.1 + specSkillSum sessions (fun e => e.clarityScore),
       acc.2.1 + specSkillSum sessions (fun e => e.correctnessScore),
       acc.2.2 + specSkillSum sessions (fun e => e.communicationScore)) := by
  induction sessions generalizing acc with
  | nil => simp [specSkillSum]
  | cons s rest ih =>
    rw [List.foldl_cons]
    cases hs : s.evaluation with
    | none =>
      simp only [hs]
      rw [ih]
      simp [specSkillSum, hs]
    | some e =>
      simp only [hs]
      rw [ih]
      simp [specSkillSum, hs, add_assoc]

/-- skillTotals computes exactly the spec sums over evaluated sessions. -/
theorem skillTotals_eq (sessions : List Session) :
    skillTotals sessions =
      (specSkillSum sessions (fun e => e.clarityScore),
       specSkillSum sessions (fun e => e.correctnessScore),
       specSkillSum sessions (fun e => e.communicationScore)) := by
  have h := skillFold_aux sessions (0, 0, 0)
  simpa [skillTotals] using h

/-- The three-entry reduce of getInterviewAnalytics computes the
first-encountered argmax in the fixed enumeration order. -/
theorem skillReduce_pick (a b c : ℚ) :
    ([("clarity", a), ("correctness", b), ("communication", c)].foldl
      (fun acc e =>
        match acc.2 with
        | none => (some e.1, some e.2)
        | some m => if e.2 > m then (some e.1, some e.2) else acc)
      ((none : Option String), (none : Option ℚ))).1 = some (pickSkill a b c) := by
  simp only [List.foldl_cons, List.foldl_nil]
  by_cases h1 : a < b
  · rw [if_pos h1]
    dsimp only
    by_cases h2 : b < c
    · rw [if_pos h2]
      unfold pickSkill
      rw [if_neg (fun hh => absurd h1 (not_lt.mpr hh.1)), if_neg (not_le.mpr h2)]
    · rw [if_neg h2]
      unfold pickSkill
      rw [if_neg (fun hh => absurd h1 (not_lt.mpr hh.1)), if_pos (not_lt.mp h2)]
  · rw [if_neg h1]
    dsimp only
    by_cases h3 : a < c
    · rw [if_pos h3]
      unfold pickSkill
      rw [if_neg (fun hh => absurd h3 (not_lt.mpr hh.2)),
        if_neg (not_le.mpr (lt_of_le_of_lt (not_lt.mp h1) h3))]
    · rw [if_neg h3]
      unfold pickSkill
      rw [if_pos ⟨not_lt.mp h1, not_lt.mp h3⟩]

/-- strongestSkill is the first-encountered argmax of the three averages
divided by the total session count. -/
theorem strongestSkill_pick (sessions : List Session) :
    strongestSkill sessions =
      some (pickSkill ((skillTotals sessions).1 / (sessions.length : ℚ))
        ((skillTotals sessions).2.1 / (sessions.length : ℚ))
        ((skillTotals sessions).2.2 / (sessions.length : ℚ))) :=
  skillReduce_pick _ _ _

/-- The argmax is invariant under changing the positive denominator. -/
theorem pickSkill_div (a b c n k : ℚ) (hn : 0 < n) (hk : 0 < k) :
    pickSkill (a / n) (b / n) (c / n) = pickSkill (a / k) (b / k) (c / k) := by
  unfold pickSkill
  simp only [div_le_div_iff_of_pos_right hn, div_le_div_iff_of_pos_right hk]

/-- Claim C4 as stated is false: for a non-empty session list in which no
session carries an evaluation, strongestSkill is not absent — the reduce
seeded with negative infinity still selects the first entry, so the
controller reports "clarity". -/
theorem claimC4_counterexample :
    ([sNoEval] : List Session) ≠ [] ∧
    (∀ s ∈ ([sNoEval] : List Session), s.evaluation = none) ∧
    strongestSkill [sNoEval] = some "clarity" := by
  refine ⟨by decide, ?_, ?_⟩
  · intro s hs
    rw [List.mem_singleton] at hs
    subst hs
    rfl
  · rw [strongestSkill_pick]
    have ht : skillTotals [sNoEval] = (0, 0, 0) := rfl
    rw [ht]
    unfold pickSkill
    rw [if_pos (by norm_num)]

/-- Claim C4 amended: over a non-empty session list with at least one
evaluated session, strongestSkill is the skill with the highest mean
sub-score over the evaluated sessions (ties to the first of clarity,
correctness, communication) — the implementation divides by the total
session count, which does not change the argmax; but when NO session
carries an evaluation it returns "clarity" rather than null. -/
theorem claimC4_amended (sessions : List Session) (hne : sessions ≠ [])
    (hev : evaluatedSessions sessions ≠ []) :
    strongestSkill sessions = some (specStrongestSkill sessions) := by
  have hn : (0 : ℚ) < (sessions.length : ℚ) := by
    exact_mod_cast List.length_pos.mpr hne
  have hk : (0 : ℚ) < ((evaluatedSessions sessions).length : ℚ) := by
    exact_mod_cast List.length_pos.mpr hev
  rw [strongestSkill_pick, skillTotals_eq]
  show some (pickSkill (specSkillSum sessions (fun e => e.clarityScore) / (sessions.length : ℚ))
      (specSkillSum sessions (fun e => e.correctnessScore) / (sessions.length : ℚ))
      (specSkillSum sessions (fun e => e.communicationScore) / (sessions.length : ℚ))) =
    some (specStrongestSkill sessions)
  rw [pickSkill_div _ _ _ _ _ hn hk]
  rfl

/-- Witness for claim C4 at a concrete evaluated session list. -/
theorem claimC4_amended_witness :
    strongestSkill [sClarityBest] = some (specStrongestSkill [sClarityBest]) :=
  claimC4_amended [sClarityBest] (by decide) (by decide)

/-! ## Claim C9 -/

/-- Claim C9: on an ascending-by-time session list the computed trend is
exactly the spec rule — "stable" below 4 sessions, otherwise the older
half is the first floor(n/2) sessions and the newer half the rest, and the
mean overall scores are compared with a margin of 5. -/
theorem claimC9 (sessions : List Session) (h : sortedByCreatedAt sessions = true) :
    improvementTrend sessions = specTrend sessions := by
  unfold improvementTrend specTrend
  rcases lt_or_le sessions.length 4 with h4 | h4
  · rw [if_neg (not_le.mpr h4), if_pos h4]
  · rw [if_pos h4, if_neg (not_lt.mpr h4)]

/-- Witness for claim C9: scores 50,50,50,50,90,90,90,90 in ascending time
order produce the trend "improving". -/
theorem claimC9_witness :
    sortedByCreatedAt ex9 = true ∧
    improvementTrend ex9 = specTrend ex9 ∧
    improvementTrend ex9 = "improving" := by
  refine ⟨by decide, claimC9 ex9 (by decide), ?_⟩
  have ht : ex9.take (ex9.length / 2) =
      ([⟨50, none, 0⟩, ⟨50, none, 1⟩, ⟨50, none, 2⟩, ⟨50, none, 3⟩] : List Session) := rfl
  have hd : ex9.drop (ex9.length / 2) =
      ([⟨90, none, 4⟩, ⟨90, none, 5⟩, ⟨90, none, 6⟩, ⟨90, none, 7⟩] : List Session) := rfl
  have h50 : meanOverall ([⟨50, none, 0⟩, ⟨50, none, 1⟩, ⟨50, none, 2⟩,
      ⟨50, none, 3⟩] : List Session) = 50 := by
    unfold meanOverall
    simp
    norm_num
  have h90 : meanOverall ([⟨90, none, 4⟩, ⟨90, none, 5⟩, ⟨90, none, 6⟩,
      ⟨90, none, 7⟩] : List Session) = 90 := by
    unfold meanOverall
    simp
    norm_num
  unfold improvementTrend
  rw [if_pos (by decide)]
  dsimp only
  rw [ht, hd, h50, h90]
  rw [if_pos (by norm_num)]
